import Mathlib

/-!
Shallow embedding of the `mcp-chatwithtools` repository (Python) in Lean 4.

The repository bridges an LLM chat API to MCP tool servers:
* `get_mcp_tools.py` — tool discovery (`get_tools_from_server`, `get_tools`);
* `chatwithtools.py` — the execution bridge (`MCPToolExecutor._load_config`,
  `initialize_tools`, `execute_tool`) and the chat orchestrator
  (`ChatSession.send_message`);
* `server.py` — the example tool server (`calculate`, `get_weather`).

Modelling conventions:
* Python dicts with a known key set become structures whose fields are
  `Option`-typed when the key may be absent or hold `None`; a generic
  string-keyed dict becomes an association list `List (String × α)` with
  `pyGet` / `pySet` mirroring `dict.get` / `d[k] = v` (Python dict update
  keeps the original insertion position of an existing key).
* External I/O (subprocess sessions, the chat-completion HTTP API, the
  filesystem, `json.loads`) is passed in as an explicit oracle function;
  a Python `try`/`except` block around such a call becomes a `match` on the
  oracle's `Except` result, the caught exception's `str(e)` being the
  `.error` payload.
* Python floats in the calculator are modelled as exact rationals
  (`PyNum`, a normalized fraction with kernel-computable arithmetic), with
  `float(str)` restricted to plain decimal numerals and `str(float)`
  rendered as `"<int>.0"` for integer values; division by zero is modelled
  as Python's `ZeroDivisionError`.  Every claim about the calculator only
  exercises integer-valued points, where the two semantics agree.
-/

namespace MCPChat

/-- Euclid's algorithm with explicit fuel, so that the kernel can reduce
it on concrete inputs. -/
def gcdFuel : Nat → Nat → Nat → Nat
  | 0, _, b => b
  | _ + 1, 0, b => b
  | fuel + 1, a + 1, b => gcdFuel fuel (b % (a + 1)) (a + 1)

/-- Greatest common divisor via `gcdFuel` (fuel `a + 1` always suffices:
the first argument strictly decreases). -/
def natGcd (a b : Nat) : Nat := gcdFuel (a + 1) a b

/-- An exact fraction: numerator and positive denominator, kept normalized
by construction through `pnNormalize`. -/
structure PyNum where
  num : Int
  den : Nat
deriving DecidableEq

/-- Normalize a fraction `n / d` (`d ≠ 0` at every call site): make the
denominator positive and divide out the gcd. -/
def pnNormalize (n : Int) (d : Int) : PyNum :=
  if d = 0 then { num := 0, den := 0 }
  else
    let n2 : Int := if d < 0 then -n else n
    let d2 : Nat := d.natAbs
    let g : Nat := natGcd n2.natAbs d2
    { num := n2 / (g : Int), den := d2 / g }

/-- Fraction addition. -/
def pnAdd (a b : PyNum) : PyNum :=
  pnNormalize (a.num * (b.den : Int) + b.num * (a.den : Int))
    ((a.den : Int) * (b.den : Int))

/-- Fraction subtraction. -/
def pnSub (a b : PyNum) : PyNum :=
  pnNormalize (a.num * (b.den : Int) - b.num * (a.den : Int))
    ((a.den : Int) * (b.den : Int))

/-- Fraction multiplication. -/
def pnMul (a b : PyNum) : PyNum :=
  pnNormalize (a.num * b.num) ((a.den : Int) * (b.den : Int))

/-- Fraction division (callers guard against a zero divisor). -/
def pnDiv (a b : PyNum) : PyNum :=
  pnNormalize (a.num * (b.den : Int)) ((a.den : Int) * b.num)

/-- A JSON value, used for tool input schemas and parsed tool-call
arguments.  The claims never compute inside a schema. -/
inductive JVal where
  | null : JVal
  | jbool : Bool → JVal
  | jnum : PyNum → JVal
  | jstr : String → JVal
  | jarr : List JVal → JVal
  | jobj : List (String × JVal) → JVal

/-- `d.get(k)` on an association-list model of a Python dict: the value of
the first (and only) binding of `k`, or `none` when the key is absent. -/
def pyGet {α : Type} : List (String × α) → String → Option α
  | [], _ => none
  | (k, v) :: rest, key => if k = key then some v else pyGet rest key

/-- `d[k] = v` on an association-list model of a Python dict: an existing
key keeps its insertion position and gets the new value; a new key is
appended at the end. -/
def pySet {α : Type} : List (String × α) → String → α → List (String × α)
  | [], key, v => [(key, v)]
  | (k, w) :: rest, key, v =>
      if k = key then (k, v) :: rest else (k, w) :: pySet rest key v

/-- Python truthiness of an optional string: `None` and `""` are falsy. -/
def optStrFalsy : Option String → Bool
  | none => true
  | some s => s.isEmpty

/-! ### Example tool server (`server.py`) -/

/-- A Python exception value, as raised inside the example calculator. -/
inductive PyExc where
  | valueError : String → PyExc
  | zeroDivisionError : String → PyExc
deriving DecidableEq

/-- Digits of a numeral to a natural number; `none` when a non-digit
appears or the list is empty. -/
def digitsToNat : List Char → Option Nat
  | [] => none
  | cs => cs.foldl (fun acc c =>
      match acc with
      | none => none
      | some n => if c.isDigit then some (n * 10 + (c.toNat - 48)) else none)
      (some 0)

/-- Parse a plain decimal numeral (optional sign, digits, optional
fractional part) to an exact fraction.  This is the fragment of Python's
`float(str)` that the repository's calculator claims exercise. -/
def parseDecimal (s : String) : Option PyNum :=
  let cs := s.data
  let (neg, body) :=
    match cs with
    | '-' :: rest => (true, rest)
    | '+' :: rest => (false, rest)
    | _ => (false, cs)
  let (intPart, fracPart) :=
    match body.splitOn '.' with
    | [ip] => (ip, ([] : List Char))
    | [ip, fp] => (ip, fp)
    | _ => ([], ['x'])  -- more than one dot: force failure below
  match digitsToNat intPart, fracPart with
  | some n, [] =>
      some { num := if neg then -(n : Int) else (n : Int), den := 1 }
  | some n, fp =>
      match digitsToNat fp with
      | some f =>
          let scale : Nat := 10 ^ fp.length
          let numer : Int := (n * scale + f : Nat)
          some (pnNormalize (if neg then -numer else numer) (scale : Int))
      | none => none
  | none, _ => none

/-- `float(s)` in the calculator: a parsed fraction, or the
`ValueError` Python raises on an unparseable string. -/
def pyFloat (s : String) : Except PyExc PyNum :=
  match parseDecimal s with
  | some q => Except.ok q
  | none =>
      Except.error (PyExc.valueError
        ("could not convert string to float: '" ++ s ++ "'"))

/-- `str(x)` for a float that the calculator produced.  Integer values
render as `"<int>.0"`, exactly as Python prints integral floats; the
non-integer branch is a placeholder rendering (no claim evaluates it). -/
def pyFloatStr (q : PyNum) : String :=
  if q.den = 1 then toString q.num ++ ".0"
  else toString q.num ++ "/" ++ toString q.den

/-- Outcome of a call to the example calculator: a returned string, a
caught-and-returned exception object, or Python's implicit `None` when the
function falls through without a `return`. -/
inductive CalcResult where
  | str : String → CalcResult
  | exc : PyExc → CalcResult
  | noneVal : CalcResult
deriving DecidableEq

/-- `calculate(operator, argument1, argument2)` from `server.py`: parses
both arguments as floats, applies one of `+ - * /`, returns `str(result)`;
a parse failure or division by zero is caught and the exception object
itself is returned; an unknown operator falls off the end of the function
(implicit `None`). -/
def calculate (operator argument1 argument2 : String) : CalcResult :=
  match pyFloat argument1 with
  | Except.error e => CalcResult.exc e
  | Except.ok arg1 =>
    match pyFloat argument2 with
    | Except.error e => CalcResult.exc e
    | Except.ok arg2 =>
      if operator = "+" then CalcResult.str (pyFloatStr (pnAdd arg1 arg2))
      else if operator = "-" then CalcResult.str (pyFloatStr (pnSub arg1 arg2))
      else if operator = "*" then CalcResult.str (pyFloatStr (pnMul arg1 arg2))
      else if operator = "/" then
        if arg2.num = 0 then
          CalcResult.exc (PyExc.zeroDivisionError "float division by zero")
        else CalcResult.str (pyFloatStr (pnDiv arg1 arg2))
      else CalcResult.noneVal

/-- `get_weather(location)` from `server.py`: a deterministic stub. -/
def get_weather (location : String) : String :=
  "Weather in " ++ location ++ ": Sunny, 72°F"

/-! ### Configuration model (`mcp.json`) -/

/-- A Server Launch Spec: one entry of the `mcpServers` mapping.  A field
is `none` when the key is absent from the JSON object. -/
structure ServerConfig where
  command : Option String
  args : Option (List String)
  env : Option (List (String × String))
deriving DecidableEq

/-- Python truthiness of a server-config dict: the empty dict is falsy.
With only the modelled keys, empty means every key absent. -/
def serverConfigFalsy (sc : ServerConfig) : Bool :=
  sc.command.isNone && sc.args.isNone && sc.env.isNone

/-- The parsed configuration document.  `mcpServers` is `none` when the
top-level key is absent; the mapping keeps JSON-object insertion order. -/
structure Config where
  mcpServers : Option (List (String × ServerConfig))

/-- `config.get("mcpServers", {})`: the registry, defaulting to empty. -/
def configRegistry (config : Config) : List (String × ServerConfig) :=
  config.mcpServers.getD []

/-! ### Tool discovery (`get_mcp_tools.py`) -/

/-- A tool as reported by the MCP client library at discovery time:
`tool.name` is always a string, `tool.description` may be `None`, and
`inputSchema` is `none` when the attribute is missing (the code guards it
with `hasattr`). -/
structure McpTool where
  name : String
  description : Option String
  inputSchema : Option JVal

/-- A Tool Descriptor: the `tool_info` dict built at lines 57–63 of
`get_mcp_tools.py`.  The `description` key is always present (its value
may be Python `None`); the `inputSchema` key is present only when the
reported tool carried the attribute. -/
structure ToolDescriptor where
  name : String
  description : Option String
  inputSchema : Option JVal

/-- Lines 57–63 of `get_mcp_tools.py`: build the `tool_info` dict for one
reported tool, adding `inputSchema` only when the attribute exists. -/
def extractToolInfo (t : McpTool) : ToolDescriptor :=
  { name := t.name, description := t.description, inputSchema := t.inputSchema }

/-- A Discovery Result dict.  Each field is `none` when the corresponding
key is absent: success records carry `server`/`tools`/`tool_count`, error
records carry `server`/`error`, and the empty-registry record carries only
`error`. -/
structure DiscoveryResult where
  server : Option String
  tools : Option (List ToolDescriptor)
  tool_count : Option Nat
  error : Option String

/-- The error-shaped Discovery Result `{"server": name, "error": msg}`. -/
def mkServerError (name msg : String) : DiscoveryResult :=
  { server := some name, tools := none, tool_count := none, error := some msg }

/-- The success-shaped Discovery Result
`{"server": name, "tools": ts, "tool_count": len(ts)}`. -/
def mkServerOk (name : String) (ts : List ToolDescriptor) : DiscoveryResult :=
  { server := some name, tools := some ts, tool_count := some ts.length,
    error := none }

/-- `get_tools_from_server(server_name, server_config)` from
`get_mcp_tools.py`.  The subprocess launch, protocol handshake and
`list_tools()` round-trip are the oracle `sess`: `Except.error e` is an
exception raised inside the `try` block with `str(e) = e`, and
`Except.ok ts` is the reported tool list.  An empty or missing `command`
returns the error record before the oracle is ever consulted; any oracle
exception is caught and converted to an error record — the function is
total, it never raises past its own boundary. -/
def get_tools_from_server (sess : ServerConfig → Except String (List McpTool))
    (server_name : String) (server_config : ServerConfig) : DiscoveryResult :=
  if optStrFalsy server_config.command then
    mkServerError server_name "No command specified in configuration"
  else
    match sess server_config with
    | Except.error e => mkServerError server_name e
    | Except.ok mcpTools =>
        mkServerOk server_name (mcpTools.map extractToolInfo)

/-- A raised Python error from the configuration-loading path. -/
inductive PyError where
  | fileNotFound : String → PyError
  | jsonDecodeError : String → PyError
deriving DecidableEq

/-- The single synthetic record `{"error": "No mcpServers found in
configuration"}` returned for an empty registry. -/
def noServersRecord : DiscoveryResult :=
  { server := none, tools := none, tool_count := none,
    error := some "No mcpServers found in configuration" }

/-- `get_tools(config_path)` from `get_mcp_tools.py`.  The filesystem is
the oracle `fs` (`none` when no file exists at `config_path`, else the
file's content) and `json.loads` is the oracle `parseJson` (its `Except`
error being the `JSONDecodeError`).  A missing file raises
`FileNotFoundError`, malformed JSON propagates the decode error; an empty
or absent `mcpServers` mapping yields the single synthetic error record;
otherwise every server is discovered and `asyncio.gather` returns the
per-server results in the registry's insertion order of launch. -/
def get_tools (config_path : String) (fs : Option String)
    (parseJson : String → Except String Config)
    (sess : ServerConfig → Except String (List McpTool)) :
    Except PyError (List DiscoveryResult) :=
  match fs with
  | none =>
      Except.error (PyError.fileNotFound
        ("Configuration file not found: " ++ config_path))
  | some content =>
      match parseJson content with
      | Except.error e => Except.error (PyError.jsonDecodeError e)
      | Except.ok config =>
          let mcp_servers := configRegistry config
          if mcp_servers.isEmpty then Except.ok [noServersRecord]
          else
            Except.ok (mcp_servers.map
              (fun p => get_tools_from_server sess p.1 p.2))

/-! ### Execution bridge (`chatwithtools.py`, class `MCPToolExecutor`) -/

/-- `MCPToolExecutor._load_config` (`chatwithtools.py` lines 35–42): raise
`FileNotFoundError` when no file exists at the path, parse the content
with `json.load` (the `parseJson` oracle, whose error is the
`JSONDecodeError` it raises), and return the whole parsed document. -/
def load_config (config_path : String) (fs : Option String)
    (parseJson : String → Except String Config) : Except PyError Config :=
  match fs with
  | none =>
      Except.error (PyError.fileNotFound
        ("Configuration file not found: " ++ config_path))
  | some content =>
      match parseJson content with
      | Except.error e => Except.error (PyError.jsonDecodeError e)
      | Except.ok config => Except.ok config

/-- The Configuration Model's load operation as the spec describes it:
the loaded document's `mcpServers` field with the empty-mapping default —
the composition of `_load_config` with `config.get("mcpServers", {})`,
exactly the pipeline at lines 82–91 of `get_mcp_tools.py` and the
load/extract pair in `chatwithtools.py`. -/
def load_registry (config_path : String) (fs : Option String)
    (parseJson : String → Except String Config) :
    Except PyError (List (String × ServerConfig)) :=
  match load_config config_path fs parseJson with
  | Except.error e => Except.error e
  | Except.ok config => Except.ok (configRegistry config)

/-- The Tool-to-Server Index `self.tool_to_server`: a Python dict mapping
a tool name to the value of `server_info.get("server")`, which is an
optional string. -/
abbrev Index : Type := List (String × Option String)

/-- One hexadecimal digit. -/
def hexDigit (n : Nat) : Char :=
  if n < 10 then Char.ofNat (48 + n) else Char.ofNat (87 + (n % 6))

/-- Four-digit lowercase hexadecimal rendering of `n % 65536`. -/
def hex4 (n : Nat) : String :=
  String.mk [hexDigit (n / 4096 % 16), hexDigit (n / 256 % 16),
    hexDigit (n / 16 % 16), hexDigit (n % 16)]

/-- Escape one character the way `json.dumps` (with its default
`ensure_ascii=True`) escapes characters inside a string literal. -/
def pyJsonEscapeChar (c : Char) : String :=
  if c = '"' then "\\\""
  else if c = '\\' then "\\\\"
  else if c = '\n' then "\\n"
  else if c = '\r' then "\\r"
  else if c = '\t' then "\\t"
  else if c.toNat = 8 then "\\b"
  else if c.toNat = 12 then "\\f"
  else if c.toNat < 32 then "\\u" ++ hex4 c.toNat
  else if c.toNat < 127 then String.mk [c]
  else if c.toNat ≤ 65535 then "\\u" ++ hex4 c.toNat
  else
    let v := c.toNat - 65536
    "\\u" ++ hex4 (55296 + v / 1024) ++ "\\u" ++ hex4 (56320 + v % 1024)

/-- `json.dumps` of a Python string. -/
def pyJsonStr (s : String) : String :=
  "\"" ++ String.join (s.data.map pyJsonEscapeChar) ++ "\""

/-- `json.dumps({"error": msg})`: the exact JSON text the bridge returns
on every error path (note `json.dumps`'s default `": "` separator). -/
def pyJsonDumpsError (msg : String) : String :=
  "\x7b\"error\": " ++ pyJsonStr msg ++ "\x7d"

/-- One item of a tool response's `content` sequence: `text` is present
when `hasattr(item, "text")`, and `strForm` is `str(item)`. -/
structure ContentItem where
  text : Option String
  strForm : String

/-- A `call_tool` response: `content` is present when
`hasattr(result, "content")`, and `strForm` is `str(result)`. -/
structure CallToolResult where
  content : Option (List ContentItem)
  strForm : String

/-- Lines 129–139 of `chatwithtools.py`: flatten a tool response to text —
each content item's `text` when present, else its `str` form, joined with
newlines; a response with no `content` attribute is rendered whole. -/
def extractToolContent (result : CallToolResult) : String :=
  match result.content with
  | some items =>
      String.intercalate "\n" (items.map (fun item => item.text.getD item.strForm))
  | none => result.strForm

/-- `MCPToolExecutor.execute_tool(tool_name, arguments)` (`chatwithtools.py`
lines 91–142).  The oracle `sess` stands for the whole `try`-block
round-trip (spawn, handshake, `call_tool`): `Except.error e` is any
exception raised there with `str(e) = e`.  The function is total — every
failure becomes a `json.dumps({"error": ...})` string:
a falsy index lookup (`tool_name` absent, or mapped to `None`/`""`) gives
"Tool ... not found"; a falsy registry lookup gives "Server ... not
configured"; an oracle exception is caught and dumped. -/
def execute_tool (sess : ServerConfig → String → JVal → Except String CallToolResult)
    (tool_to_server : Index) (config : Config)
    (tool_name : String) (arguments : JVal) : String :=
  let server_name : Option String := (pyGet tool_to_server tool_name).bind id
  match server_name with
  | none => pyJsonDumpsError ("Tool " ++ tool_name ++ " not found")
  | some sn =>
      if sn.isEmpty then
        pyJsonDumpsError ("Tool " ++ tool_name ++ " not found")
      else
        match pyGet (configRegistry config) sn with
        | none => pyJsonDumpsError ("Server " ++ sn ++ " not configured")
        | some server_config =>
            if serverConfigFalsy server_config then
              pyJsonDumpsError ("Server " ++ sn ++ " not configured")
            else
              match sess server_config tool_name arguments with
              | Except.error e => pyJsonDumpsError e
              | Except.ok result => extractToolContent result

/-- The `function` object of a Chat Function Definition: `parameters` is
present exactly when the descriptor carried an `inputSchema`. -/
structure OpenAIFunction where
  name : String
  description : Option String
  parameters : Option JVal

/-- A Chat Function Definition `{"type": "function", "function": ...}` as
built at lines 75–85 of `chatwithtools.py`. -/
structure OpenAITool where
  type : String
  function : OpenAIFunction

/-- Lines 75–85 of `chatwithtools.py`: format one Tool Descriptor for the
chat API.  `description` is `tool.get("description", "")`, which returns
the stored value because discovery always writes the key; `parameters` is
added only when `"inputSchema" in tool`. -/
def toolToOpenAI (tool : ToolDescriptor) : OpenAITool :=
  { type := "function",
    function := { name := tool.name, description := tool.description,
                  parameters := tool.inputSchema } }

/-- Decoding a Chat Function Definition back to a Tool Descriptor: read
`name`, `description` and `parameters` out of the `function` object.  This
is the spec's round-trip inverse, not repository code. -/
def openAIToTool (t : OpenAITool) : ToolDescriptor :=
  { name := t.function.name, description := t.function.description,
    inputSchema := t.function.parameters }

/-- The body of the `for server_info in server_tools` loop of
`MCPToolExecutor.initialize_tools` (`chatwithtools.py` lines 57–87): an
error-bearing record is warned about and skipped; otherwise every tool of
the record is written into the Tool-to-Server Index (last write wins) and
its Chat Function Definition is appended to the output list. -/
def initToolsStep (acc : Index × List OpenAITool) (server_info : DiscoveryResult) :
    Index × List OpenAITool :=
  if server_info.error.isSome then acc
  else
    let server_name := server_info.server
    let tools := server_info.tools.getD []
    tools.foldl
      (fun acc2 tool =>
        (pySet acc2.1 tool.name server_name, acc2.2 ++ [toolToOpenAI tool]))
      acc

/-- `MCPToolExecutor.initialize_tools` (`chatwithtools.py` lines 44–89),
given the discovery results and the executor's current Tool-to-Server
Index: returns the mutated index and the list of Chat Function
Definitions, in server order then per-server tool order. -/
def initTools (server_tools : List DiscoveryResult) (tool_to_server : Index) :
    Index × List OpenAITool :=
  server_tools.foldl initToolsStep (tool_to_server, [])

/-! ### Chat orchestrator (`chatwithtools.py`, class `ChatSession`) -/

/-- The `function` part of a tool-call record: name and the raw
JSON-encoded argument string. -/
structure FnCall where
  name : String
  arguments : String
deriving DecidableEq

/-- A tool-call record as produced by the chat API inside an assistant
message. -/
structure ToolCallRecord where
  id : String
  type : String
  function : FnCall
deriving DecidableEq

/-- A transcript message, tagged by role: `user` and `tool` messages, an
assistant message carrying tool-call records (lines 201–217), and a plain
assistant message (lines 248–250; its content may be `None`). -/
inductive ChatMsg where
  | user : String → ChatMsg
  | assistantCalls : Option String → List ToolCallRecord → ChatMsg
  | tool : (tool_call_id : String) → (content : String) → ChatMsg
  | assistant : Option String → ChatMsg

/-- The assistant message of one chat-completion response:
`response.choices[0].message`.  An empty `tool_calls` list models the
falsy Python attribute (`None` or `[]`). -/
structure AssistantResp where
  content : Option String
  tool_calls : List ToolCallRecord

/-- The arguments of one `client.chat.completions.create` call that
`send_message` issues (the model name aside): the transcript, and the
`tools` / `tool_choice` keyword arguments (`none` = omitted / `None`). -/
structure CompletionCall where
  messages : List ChatMsg
  tools : Option (List OpenAITool)
  tool_choice : Option String

/-- `self.tools if self.tools else None` (line 192): the cached tool
definitions, with both `None` and the empty list collapsing to `None`. -/
def toolsParam (tools : Option (List OpenAITool)) : Option (List OpenAITool) :=
  match tools with
  | none => none
  | some ts => if ts.isEmpty then none else some ts

/-- `"auto" if self.tools else None` (line 193). -/
def toolChoiceParam (tools : Option (List OpenAITool)) : Option String :=
  match tools with
  | none => none
  | some ts => if ts.isEmpty then none else some "auto"

/-- The first chat-completion call of a turn (lines 189–194): the
transcript already holds the just-appended user message. -/
def firstCompletionCall (tools : Option (List OpenAITool))
    (messages : List ChatMsg) : CompletionCall :=
  { messages := messages, tools := toolsParam tools,
    tool_choice := toolChoiceParam tools }

/-- The dict rebuilt for each tool call at lines 205–215: same id, type,
function name and raw argument string. -/
def rebuildToolCall (tc : ToolCallRecord) : ToolCallRecord :=
  { id := tc.id, type := tc.type,
    function := { name := tc.function.name, arguments := tc.function.arguments } }

/-- The `for tool_call in assistant_message.tool_calls` loop (lines
220–238), run sequentially in the model's order: parse the record's
argument string (`json.loads`, the `parseArgs` oracle), execute the tool,
and append a `tool` message carrying the record's id and the executor's
string result.  Returns the appended messages together with the first
uncaught parse exception, if any — messages appended before such an
exception remain appended. -/
def runToolCalls (parseArgs : String → Except String JVal)
    (execTool : String → JVal → String) :
    List ToolCallRecord → List ChatMsg × Option String
  | [] => ([], none)
  | tc :: rest =>
      match parseArgs tc.function.arguments with
      | Except.error e => ([], some e)
      | Except.ok args =>
          let result := execTool tc.function.name args
          let step := runToolCalls parseArgs execTool rest
          (ChatMsg.tool tc.id result :: step.1, step.2)

/-- `ChatSession.send_message(user_message)` (`chatwithtools.py` lines
175–252).  The chat API is the oracle `complete` (an `Except.error` is an
exception raised by the HTTP call); tool execution is the total function
`execTool` (`execute_tool` never raises); `json.loads` on argument strings
is `parseArgs`.  Returns the transcript as it stands when the call ends —
`self.messages` is mutated in place, so on an exception the messages
appended so far remain — together with either the returned content or the
exception that propagated out. -/
def send_message (complete : CompletionCall → Except String AssistantResp)
    (parseArgs : String → Except String JVal)
    (execTool : String → JVal → String)
    (tools : Option (List OpenAITool))
    (messages : List ChatMsg) (user_message : String) :
    List ChatMsg × Except String (Option String) :=
  let msgs1 := messages ++ [ChatMsg.user user_message]
  match complete (firstCompletionCall tools msgs1) with
  | Except.error e => (msgs1, Except.error e)
  | Except.ok am =>
      if am.tool_calls.isEmpty then
        (msgs1 ++ [ChatMsg.assistant am.content], Except.ok am.content)
      else
        let msgs2 := msgs1 ++
          [ChatMsg.assistantCalls am.content (am.tool_calls.map rebuildToolCall)]
        let run := runToolCalls parseArgs execTool am.tool_calls
        match run.2 with
        | some e => (msgs2 ++ run.1, Except.error e)
        | none =>
            let msgs3 := msgs2 ++ run.1
            match complete { messages := msgs3, tools := none, tool_choice := none } with
            | Except.error e => (msgs3, Except.error e)
            | Except.ok am2 =>
                (msgs3 ++ [ChatMsg.assistant am2.content], Except.ok am2.content)

/-- The tool-call id carried by a transcript message: `some` exactly for
`tool`-role messages. -/
def ChatMsg.callId : ChatMsg → Option String
  | ChatMsg.tool i _ => some i
  | _ => none

/-- Whether `float(s)` succeeds in the modelled fragment. -/
def floatParses (s : String) : Bool :=
  match pyFloat s with
  | Except.ok _ => true
  | Except.error _ => false

/-! ### Concrete fixtures for witnesses and counterexamples -/

/-- A tool named `"ping"` as served by a first server. -/
def pingDescA : ToolDescriptor :=
  { name := "ping", description := some "ping from alpha", inputSchema := none }

/-- A tool named `"ping"` as served by a second server. -/
def pingDescB : ToolDescriptor :=
  { name := "ping", description := some "ping from beta",
    inputSchema := some (JVal.jobj []) }

/-- Discovery success for server `"alpha"`, exposing `"ping"`. -/
def resAlpha : DiscoveryResult := mkServerOk "alpha" [pingDescA]

/-- Discovery success for server `"beta"`, also exposing `"ping"`. -/
def resBeta : DiscoveryResult := mkServerOk "beta" [pingDescB]

/-- A first tool-call record, id `"call_1"`. -/
def tcRecord1 : ToolCallRecord :=
  { id := "call_1", type := "function",
    function := { name := "get_weather", arguments := "\x7b\x7d" } }

/-- A second tool-call record, id `"call_2"`. -/
def tcRecord2 : ToolCallRecord :=
  { id := "call_2", type := "function",
    function := { name := "calculate", arguments := "\x7b\x7d" } }

/-- An assistant response requesting two tool calls. -/
def amCallsW : AssistantResp :=
  { content := none, tool_calls := [tcRecord1, tcRecord2] }

/-- A final assistant response with no tool calls. -/
def amFinalW : AssistantResp :=
  { content := some "all done", tool_calls := [] }

/-- A chat-completion oracle: requests two tool calls on the opening call
of a fresh session, then answers plainly. -/
def completeW : CompletionCall → Except String AssistantResp :=
  fun c => if c.messages.length ≤ 1 then Except.ok amCallsW else Except.ok amFinalW

/-- An argument-string parser oracle that always succeeds. -/
def parseNullW : String → Except String JVal := fun _ => Except.ok (JVal.jobj [])

/-- A tool executor returning a fixed string. -/
def execPongW : String → JVal → String := fun _ _ => "pong"

/-- A one-server configuration for the `"weather"` server. -/
def weatherCfgW : Config :=
  { mcpServers := some [("weather",
      { command := some "python", args := some ["server.py"], env := none })] }

/-- A two-server configuration: `"bad"` has no `command`, `"weather"`
does. -/
def twoServerCfgW : Config :=
  { mcpServers := some
      [("bad", { command := none, args := none, env := none }),
       ("weather", { command := some "python", args := none, env := none })] }

/-- A configuration whose `mcpServers` key is absent. -/
def emptyCfgW : Config := { mcpServers := none }

/-- A `json.loads` oracle returning a fixed parsed document. -/
def parseCfgW (cfg : Config) : String → Except String Config :=
  fun _ => Except.ok cfg

/-- A tool-call session oracle whose subprocess launch fails. -/
def sessFailW : ServerConfig → String → JVal → Except String CallToolResult :=
  fun _ _ _ => Except.error "spawn failed"

/-- A discovery session oracle whose connection fails. -/
def discFailW : ServerConfig → Except String (List McpTool) :=
  fun _ => Except.error "Connection closed"

/-- The reported `get_weather` tool used by `discOkW`. -/
def weatherMcpToolW : McpTool :=
  { name := "get_weather",
    description := some "Get the current weather for a specified location.",
    inputSchema := some (JVal.jobj []) }

/-- A discovery session oracle reporting one `get_weather` tool. -/
def discOkW : ServerConfig → Except String (List McpTool) :=
  fun _ => Except.ok [weatherMcpToolW]

/-- A chat-completion oracle whose HTTP call always raises. -/
def completeFailW : CompletionCall → Except String AssistantResp :=
  fun _ => Except.error "Connection error"

/-! ## Helper lemmas -/

/-- Both branches of `get_tools_from_server` tag the result with the given
server name. -/
theorem get_tools_from_server_names (sess : ServerConfig → Except String (List McpTool))
    (n : String) (c : ServerConfig) :
    (get_tools_from_server sess n c).server = some n := by
  unfold get_tools_from_server
  cases hc : optStrFalsy c.command with
  | true => rfl
  | false => cases sess c <;> rfl

/-- When no argument string fails to parse, the tool-call loop appends one
message per record. -/
theorem runToolCalls_length_of_ok (parseArgs : String → Except String JVal)
    (execTool : String → JVal → String) :
    ∀ tcs : List ToolCallRecord, (runToolCalls parseArgs execTool tcs).2 = none →
      (runToolCalls parseArgs execTool tcs).1.length = tcs.length := by
  intro tcs
  induction tcs with
  | nil => intro _; rfl
  | cons tc rest ih =>
      unfold runToolCalls
      cases parseArgs tc.function.arguments with
      | error e => intro h; exact Option.noConfusion h
      | ok args => intro h; exact congrArg Nat.succ (ih h)

/-- When no argument string fails to parse, the tool-call loop's messages
carry, in order, exactly the ids of the records. -/
theorem runToolCalls_ids_of_ok (parseArgs : String → Except String JVal)
    (execTool : String → JVal → String) :
    ∀ tcs : List ToolCallRecord, (runToolCalls parseArgs execTool tcs).2 = none →
      (runToolCalls parseArgs execTool tcs).1.map ChatMsg.callId =
        tcs.map (fun tc => some tc.id) := by
  intro tcs
  induction tcs with
  | nil => intro _; rfl
  | cons tc rest ih =>
      unfold runToolCalls
      cases parseArgs tc.function.arguments with
      | error e => intro h; exact Option.noConfusion h
      | ok args => intro h; exact congrArg (List.cons (some tc.id)) (ih h)

/-! ## Claim theorems -/

/-- C7: for the example calculator, `calculate("+", "2", "3")` returns the
string `"5.0"`; `calculate("/", "10", "0")` returns the caught
`ZeroDivisionError` object itself; and any operator outside `+ - * /` with
parseable arguments falls through with no explicit return (Python's
implicit `None`). -/
theorem calculate_example_tool :
    calculate "+" "2" "3" = CalcResult.str "5.0" ∧
    calculate "/" "10" "0" =
      CalcResult.exc (PyExc.zeroDivisionError "float division by zero") ∧
    ∀ op a1 a2 : String, floatParses a1 = true → floatParses a2 = true →
      op ≠ "+" → op ≠ "-" → op ≠ "*" → op ≠ "/" →
      calculate op a1 a2 = CalcResult.noneVal := by
  refine ⟨by decide, by decide, ?_⟩
  intro op a1 a2 h1 h2 hp hm hs hd
  unfold floatParses at h1 h2
  unfold calculate
  cases e1 : pyFloat a1 with
  | error e => rw [e1] at h1; simp at h1
  | ok q1 =>
      cases e2 : pyFloat a2 with
      | error e => rw [e2] at h2; simp at h2
      | ok q2 => simp [hp, hm, hs, hd]

/-- C7 witness: the unknown operator `"%"` with parseable arguments yields
the absent-value outcome. -/
theorem calculate_example_tool_witness :
    calculate "%" "2" "3" = CalcResult.noneVal :=
  calculate_example_tool.2.2 "%" "2" "3" (by decide) (by decide)
    (by decide) (by decide) (by decide) (by decide)

/-- C9: encoding a Tool Descriptor into a Chat Function Definition, as
`initialize_tools` does, and decoding back preserves name, description and
input schema exactly; the `parameters` field is present exactly when the
schema was present. -/
theorem toolToOpenAI_roundtrip (t : ToolDescriptor) :
    openAIToTool (toolToOpenAI t) = t ∧
    (toolToOpenAI t).function.name = t.name ∧
    (toolToOpenAI t).function.description = t.description ∧
    (toolToOpenAI t).function.parameters = t.inputSchema :=
  ⟨rfl, rfl, rfl, rfl⟩

/-- C4: `get_tools_from_server` never raises past its own boundary — a
missing or empty `command` returns the fixed error record whatever the
session oracle would do (no subprocess launch is attempted), and any
launch/handshake/listing exception is converted into an error record
carrying its text. -/
theorem get_tools_from_server_error_paths (server_name : String)
    (server_config : ServerConfig) :
    (optStrFalsy server_config.command = true →
      ∀ sess, get_tools_from_server sess server_name server_config =
        mkServerError server_name "No command specified in configuration") ∧
    (∀ sess e, optStrFalsy server_config.command = false →
      sess server_config = Except.error e →
      get_tools_from_server sess server_name server_config =
        mkServerError server_name e) := by
  constructor
  · intro h sess
    simp [get_tools_from_server, h]
  · intro sess e h he
    simp [get_tools_from_server, h, he]

/-- C4 witness: a server with no `command` errors without launching, and a
failing connection is caught as an error record. -/
theorem get_tools_from_server_error_paths_witness :
    get_tools_from_server discOkW "bad"
        { command := none, args := none, env := none } =
      mkServerError "bad" "No command specified in configuration" ∧
    get_tools_from_server discFailW "weather"
        { command := some "python", args := none, env := none } =
      mkServerError "weather" "Connection closed" :=
  ⟨(get_tools_from_server_error_paths "bad"
      { command := none, args := none, env := none }).1 rfl discOkW,
   (get_tools_from_server_error_paths "weather"
      { command := some "python", args := none, env := none }).2 discFailW
     "Connection closed" rfl rfl⟩

/-- C5: a configuration whose `mcpServers` registry is empty or absent
makes `get_tools` return the single-element collection holding the
synthetic `"No mcpServers found in configuration"` record, for every
session oracle — so no server discovery is attempted. -/
theorem get_tools_empty_registry (config_path content : String)
    (parseJson : String → Except String Config) (config : Config)
    (hp : parseJson content = Except.ok config)
    (hempty : configRegistry config = []) :
    ∀ sess, get_tools config_path (some content) parseJson sess =
      Except.ok [noServersRecord] := by
  intro sess
  simp [get_tools, hp, hempty]

/-- C5 witness: a document with no `mcpServers` key yields exactly the
synthetic record. -/
theorem get_tools_empty_registry_witness :
    get_tools "mcp.json" (some "\x7b\x7d") (parseCfgW emptyCfgW) discFailW =
      Except.ok [noServersRecord] :=
  get_tools_empty_registry "mcp.json" "\x7b\x7d" (parseCfgW emptyCfgW)
    emptyCfgW rfl rfl discFailW

/-- C8: the Configuration Model's load operation fails with
`FileNotFoundError` when no file exists, fails with the `JSONDecodeError`
when the content is not valid JSON, and otherwise returns the parsed
document's `mcpServers` field, defaulting to the empty mapping when that
field is absent. -/
theorem load_registry_contract (config_path : String)
    (parseJson : String → Except String Config) :
    (load_registry config_path none parseJson =
      Except.error (PyError.fileNotFound
        ("Configuration file not found: " ++ config_path))) ∧
    (∀ content e, parseJson content = Except.error e →
      load_registry config_path (some content) parseJson =
        Except.error (PyError.jsonDecodeError e)) ∧
    (∀ content config, parseJson content = Except.ok config →
      load_registry config_path (some content) parseJson =
        Except.ok (configRegistry config)) ∧
    (∀ content config, parseJson content = Except.ok config →
      config.mcpServers = none →
      load_registry config_path (some content) parseJson = Except.ok []) := by
  refine ⟨rfl, ?_, ?_, ?_⟩
  · intro content e he
    simp [load_registry, load_config, he]
  · intro content config hc
    simp [load_registry, load_config, hc]
  · intro content config hc habsent
    simp [load_registry, load_config, hc, configRegistry, habsent]

/-- C8 witness: the three outcomes at concrete inputs. -/
theorem load_registry_contract_witness :
    load_registry "mcp.json" none (parseCfgW weatherCfgW) =
      Except.error (PyError.fileNotFound
        ("Configuration file not found: " ++ "mcp.json")) ∧
    load_registry "mcp.json" (some "not json")
        (fun _ => Except.error "Expecting value: line 1 column 1 (char 0)") =
      Except.error (PyError.jsonDecodeError
        "Expecting value: line 1 column 1 (char 0)") ∧
    load_registry "mcp.json" (some "doc") (parseCfgW weatherCfgW) =
      Except.ok (configRegistry weatherCfgW) ∧
    load_registry "mcp.json" (some "doc") (parseCfgW emptyCfgW) =
      Except.ok [] :=
  ⟨(load_registry_contract "mcp.json" (parseCfgW weatherCfgW)).1,
   (load_registry_contract "mcp.json"
       (fun _ => Except.error "Expecting value: line 1 column 1 (char 0)")).2.1
     "not json" "Expecting value: line 1 column 1 (char 0)" rfl,
   (load_registry_contract "mcp.json" (parseCfgW weatherCfgW)).2.2.1
     "doc" weatherCfgW rfl,
   (load_registry_contract "mcp.json" (parseCfgW emptyCfgW)).2.2.2
     "doc" emptyCfgW rfl rfl⟩

/-- C1 counterexample: with discovery results for servers `"alpha"` and
`"beta"` each exposing a tool named `"ping"`, `initialize_tools` emits TWO
Chat Function Definitions named `"ping"` in its returned collection, not
exactly one — the output list is never deduplicated (only the index is
last-write-wins). -/
theorem initTools_duplicate_defs_cex :
    (initTools [resAlpha, resBeta] []).2.countP
        (fun d => d.function.name == "ping") = 2 ∧
    ¬ ((initTools [resAlpha, resBeta] []).2.countP
        (fun d => d.function.name == "ping") = 1) :=
  ⟨rfl, by decide⟩

/-- C1 (amended): given discovery results for two servers each exposing a
tool named `"ping"`, `initialize_tools` leaves exactly one `"ping"` entry
in the Tool-to-Server Index, mapped to the later-processed server, and
emits one Chat Function Definition per discovered tool — so the returned
collection holds two definitions named `"ping"`, one per server, in
processing order (duplicates are not removed). -/
theorem initTools_last_write_wins (s1 s2 : String) (t1 t2 : ToolDescriptor)
    (h1 : t1.name = "ping") (h2 : t2.name = "ping") :
    (initTools [mkServerOk s1 [t1], mkServerOk s2 [t2]] []).1 =
      [("ping", some s2)] ∧
    (initTools [mkServerOk s1 [t1], mkServerOk s2 [t2]] []).2 =
      [toolToOpenAI t1, toolToOpenAI t2] ∧
    (initTools [mkServerOk s1 [t1], mkServerOk s2 [t2]] []).2.countP
      (fun d => d.function.name == "ping") = 2 := by
  have hfold : initTools [mkServerOk s1 [t1], mkServerOk s2 [t2]] [] =
      ([("ping", some s2)], [toolToOpenAI t1, toolToOpenAI t2]) := by
    simp [initTools, initToolsStep, mkServerOk, pySet, h1, h2]
  refine ⟨by rw [hfold], by rw [hfold], ?_⟩
  rw [hfold]
  simp [toolToOpenAI, h1, h2]

/-- C1 witness: the amended statement at the concrete `"alpha"`/`"beta"`
pair of discovery results. -/
theorem initTools_last_write_wins_witness :
    (initTools [mkServerOk "alpha" [pingDescA], mkServerOk "beta" [pingDescB]] []).1 =
      [("ping", some "beta")] ∧
    (initTools [mkServerOk "alpha" [pingDescA], mkServerOk "beta" [pingDescB]] []).2 =
      [toolToOpenAI pingDescA, toolToOpenAI pingDescB] ∧
    (initTools [mkServerOk "alpha" [pingDescA], mkServerOk "beta" [pingDescB]] []).2.countP
      (fun d => d.function.name == "ping") = 2 :=
  initTools_last_write_wins "alpha" "beta" pingDescA pingDescB rfl rfl

/-- C3: `execute_tool` never raises — an unknown tool name returns exactly
`json.dumps({"error": "Tool <name> not found"})`, a tool mapped to a
server absent from the registry returns exactly
`json.dumps({"error": "Server <name> not configured"})`, and any exception
raised while launching, handshaking or invoking the tool is caught and
converted to `json.dumps({"error": <message>})`. -/
theorem execute_tool_error_paths
    (sess : ServerConfig → String → JVal → Except String CallToolResult)
    (tool_to_server : Index) (config : Config)
    (tool_name : String) (arguments : JVal) :
    (pyGet tool_to_server tool_name = none →
      execute_tool sess tool_to_server config tool_name arguments =
        pyJsonDumpsError ("Tool " ++ tool_name ++ " not found")) ∧
    (∀ sn, pyGet tool_to_server tool_name = some (some sn) →
      sn.isEmpty = false →
      pyGet (configRegistry config) sn = none →
      execute_tool sess tool_to_server config tool_name arguments =
        pyJsonDumpsError ("Server " ++ sn ++ " not configured")) ∧
    (∀ sn sc e, pyGet tool_to_server tool_name = some (some sn) →
      sn.isEmpty = false →
      pyGet (configRegistry config) sn = some sc →
      serverConfigFalsy sc = false →
      sess sc tool_name arguments = Except.error e →
      execute_tool sess tool_to_server config tool_name arguments =
        pyJsonDumpsError e) := by
  refine ⟨?_, ?_, ?_⟩
  · intro h
    simp [execute_tool, h]
  · intro sn hs hemp hreg
    simp [execute_tool, hs, hemp, hreg]
  · intro sn sc e hs hemp hreg hfal hsess
    simp [execute_tool, hs, hemp, hreg, hfal, hsess]

/-- C3 witness: the three error paths at concrete inputs, and the exact
JSON text of the not-found payload. -/
theorem execute_tool_error_paths_witness :
    execute_tool sessFailW [] weatherCfgW "ping" (JVal.jobj []) =
      pyJsonDumpsError ("Tool " ++ "ping" ++ " not found") ∧
    pyJsonDumpsError ("Tool " ++ "ping" ++ " not found") =
      "\x7b\"error\": \"Tool ping not found\"\x7d" ∧
    execute_tool sessFailW [("ping", some "ghost")] weatherCfgW "ping"
        (JVal.jobj []) =
      pyJsonDumpsError ("Server " ++ "ghost" ++ " not configured") ∧
    execute_tool sessFailW [("ping", some "weather")] weatherCfgW "ping"
        (JVal.jobj []) =
      pyJsonDumpsError "spawn failed" :=
  ⟨(execute_tool_error_paths sessFailW [] weatherCfgW "ping" (JVal.jobj [])).1 rfl,
   by decide,
   (execute_tool_error_paths sessFailW [("ping", some "ghost")] weatherCfgW
      "ping" (JVal.jobj [])).2.1 "ghost" rfl rfl rfl,
   (execute_tool_error_paths sessFailW [("ping", some "weather")] weatherCfgW
      "ping" (JVal.jobj [])).2.2 "weather"
     { command := some "python", args := some ["server.py"], env := none }
     "spawn failed" rfl rfl rfl rfl rfl⟩

/-- C6: for a non-empty registry, `get_tools` returns exactly one
Discovery Result per configured server, in the registry's insertion order
of launch: the i-th result is `get_tools_from_server` applied to the i-th
entry alone (so one server's failure cannot suppress, mutate or replace
any other server's result), and it carries the i-th server's name. -/
theorem get_tools_per_server (config_path content : String)
    (parseJson : String → Except String Config) (config : Config)
    (sess : ServerConfig → Except String (List McpTool))
    (hp : parseJson content = Except.ok config)
    (hne : configRegistry config ≠ []) :
    get_tools config_path (some content) parseJson sess =
      Except.ok ((configRegistry config).map
        (fun p => get_tools_from_server sess p.1 p.2)) ∧
    ((configRegistry config).map
        (fun p => get_tools_from_server sess p.1 p.2)).length =
      (configRegistry config).length ∧
    ∀ i (hi : i < (configRegistry config).length),
      ((configRegistry config).map
          (fun p => get_tools_from_server sess p.1 p.2)).get
          ⟨i, by simpa using hi⟩ =
        get_tools_from_server sess ((configRegistry config).get ⟨i, hi⟩).1
          ((configRegistry config).get ⟨i, hi⟩).2 ∧
      (((configRegistry config).map
          (fun p => get_tools_from_server sess p.1 p.2)).get
          ⟨i, by simpa using hi⟩).server =
        some ((configRegistry config).get ⟨i, hi⟩).1 := by
  have hie : (configRegistry config).isEmpty = false := by
    cases h : configRegistry config with
    | nil => exact absurd h hne
    | cons a l => rfl
  refine ⟨?_, List.length_map _ _, ?_⟩
  · simp [get_tools, hp, hie]
  · intro i hi
    constructor
    · simp [List.get_eq_getElem, List.getElem_map]
    · simp [List.get_eq_getElem, List.getElem_map, get_tools_from_server_names]

/-- C6 witness: a two-server registry where the first server is missing
its `command` and the second discovers successfully — both results are
present, in insertion order, the failure not disturbing the success. -/
theorem get_tools_per_server_witness :
    get_tools "mcp.json" (some "doc") (parseCfgW twoServerCfgW) discOkW =
      Except.ok ((configRegistry twoServerCfgW).map
        (fun p => get_tools_from_server discOkW p.1 p.2)) ∧
    get_tools "mcp.json" (some "doc") (parseCfgW twoServerCfgW) discOkW =
      Except.ok [mkServerError "bad" "No command specified in configuration",
        mkServerOk "weather" [extractToolInfo weatherMcpToolW]] :=
  ⟨(get_tools_per_server "mcp.json" "doc" (parseCfgW twoServerCfgW)
      twoServerCfgW discOkW rfl (by decide)).1,
   rfl⟩

/-- C2: on a turn whose first model response carries tool-call records
(and whose argument strings all parse), `send_message` appends, in order:
one user message, one assistant message holding all the records, one tool
message per record carrying that record's id (in the model's order) — all
before the follow-up completion call is issued on that very transcript —
and one final assistant message; for two records that is five messages
added, and only the final assistant content is returned. -/
theorem send_message_tool_turn
    (complete : CompletionCall → Except String AssistantResp)
    (parseArgs : String → Except String JVal)
    (execTool : String → JVal → String)
    (tools : Option (List OpenAITool))
    (messages : List ChatMsg) (user_message : String)
    (am am2 : AssistantResp)
    (h1 : complete (firstCompletionCall tools
        (messages ++ [ChatMsg.user user_message])) = Except.ok am)
    (hn : am.tool_calls.isEmpty = false)
    (hrun : (runToolCalls parseArgs execTool am.tool_calls).2 = none)
    (h2 : complete
        { messages := messages ++ ChatMsg.user user_message ::
            ChatMsg.assistantCalls am.content (am.tool_calls.map rebuildToolCall) ::
            (runToolCalls parseArgs execTool am.tool_calls).1,
          tools := none, tool_choice := none } = Except.ok am2) :
    send_message complete parseArgs execTool tools messages user_message =
      (messages ++ ChatMsg.user user_message ::
         ChatMsg.assistantCalls am.content (am.tool_calls.map rebuildToolCall) ::
         ((runToolCalls parseArgs execTool am.tool_calls).1 ++
           [ChatMsg.assistant am2.content]),
       Except.ok am2.content) ∧
    (runToolCalls parseArgs execTool am.tool_calls).1.length =
      am.tool_calls.length ∧
    (runToolCalls parseArgs execTool am.tool_calls).1.map ChatMsg.callId =
      am.tool_calls.map (fun tc => some tc.id) ∧
    (send_message complete parseArgs execTool tools messages user_message).1.length =
      messages.length + am.tool_calls.length + 3 ∧
    (am.tool_calls.length = 2 →
      (send_message complete parseArgs execTool tools messages user_message).1.length =
        messages.length + 5) := by
  have hlen := runToolCalls_length_of_ok parseArgs execTool am.tool_calls hrun
  have hids := runToolCalls_ids_of_ok parseArgs execTool am.tool_calls hrun
  have hmain : send_message complete parseArgs execTool tools messages user_message =
      (messages ++ ChatMsg.user user_message ::
         ChatMsg.assistantCalls am.content (am.tool_calls.map rebuildToolCall) ::
         ((runToolCalls parseArgs execTool am.tool_calls).1 ++
           [ChatMsg.assistant am2.content]),
       Except.ok am2.content) := by
    simp only [send_message, h1, hn, hrun, List.append_assoc, List.nil_append,
      List.singleton_append, List.cons_append, Bool.false_eq_true, if_false, h2]
  refine ⟨hmain, hlen, hids, ?_, ?_⟩
  · rw [hmain]
    simp [hlen]
    omega
  · intro h2len
    rw [hmain]
    simp [hlen, h2len]

/-- C2 witness: a two-tool-call turn from an empty transcript — five
messages, tool messages matching `call_1` and `call_2` in order, and the
final assistant content returned. -/
theorem send_message_tool_turn_witness :
    send_message completeW parseNullW execPongW none [] "hi" =
      ([ChatMsg.user "hi",
        ChatMsg.assistantCalls none [tcRecord1, tcRecord2],
        ChatMsg.tool "call_1" "pong", ChatMsg.tool "call_2" "pong",
        ChatMsg.assistant (some "all done")],
       Except.ok (some "all done")) :=
  (send_message_tool_turn completeW parseNullW execPongW none [] "hi"
    amCallsW amFinalW rfl rfl rfl rfl).1

/-- C10: `send_message` appends the user message before the first
completion call is issued (that call's transcript ends with it), and
performs no rollback — whatever the oracles do, the resulting transcript
extends the old one past the user message; if the first completion call
raises, the transcript keeps the user message with no assistant reply; if
an argument string fails to parse or the follow-up completion call raises,
every message appended so far in the turn is kept. -/
theorem send_message_no_rollback
    (complete : CompletionCall → Except String AssistantResp)
    (parseArgs : String → Except String JVal)
    (execTool : String → JVal → String)
    (tools : Option (List OpenAITool))
    (messages : List ChatMsg) (user_message : String) :
    (firstCompletionCall tools (messages ++ [ChatMsg.user user_message])).messages =
      messages ++ [ChatMsg.user user_message] ∧
    (∃ rest, (send_message complete parseArgs execTool tools messages user_message).1 =
      messages ++ ChatMsg.user user_message :: rest) ∧
    (∀ e, complete (firstCompletionCall tools (messages ++ [ChatMsg.user user_message])) =
        Except.error e →
      send_message complete parseArgs execTool tools messages user_message =
        (messages ++ [ChatMsg.user user_message], Except.error e)) ∧
    (∀ am e, complete (firstCompletionCall tools (messages ++ [ChatMsg.user user_message])) =
        Except.ok am →
      am.tool_calls.isEmpty = false →
      (runToolCalls parseArgs execTool am.tool_calls).2 = some e →
      send_message complete parseArgs execTool tools messages user_message =
        (messages ++ ChatMsg.user user_message ::
           ChatMsg.assistantCalls am.content (am.tool_calls.map rebuildToolCall) ::
           (runToolCalls parseArgs execTool am.tool_calls).1,
         Except.error e)) ∧
    (∀ am e, complete (firstCompletionCall tools (messages ++ [ChatMsg.user user_message])) =
        Except.ok am →
      am.tool_calls.isEmpty = false →
      (runToolCalls parseArgs execTool am.tool_calls).2 = none →
      complete
          { messages := messages ++ ChatMsg.user user_message ::
              ChatMsg.assistantCalls am.content (am.tool_calls.map rebuildToolCall) ::
              (runToolCalls parseArgs execTool am.tool_calls).1,
            tools := none, tool_choice := none } = Except.error e →
      send_message complete parseArgs execTool tools messages user_message =
        (messages ++ ChatMsg.user user_message ::
           ChatMsg.assistantCalls am.content (am.tool_calls.map rebuildToolCall) ::
           (runToolCalls parseArgs execTool am.tool_calls).1,
         Except.error e)) := by
  refine ⟨rfl, ?_, ?_, ?_, ?_⟩
  · cases h1 : complete (firstCompletionCall tools
        (messages ++ [ChatMsg.user user_message])) with
    | error e => exact ⟨[], by simp [send_message, h1]⟩
    | ok am =>
        cases hn : am.tool_calls.isEmpty with
        | true =>
            exact ⟨[ChatMsg.assistant am.content], by simp [send_message, h1, hn]⟩
        | false =>
            cases hr : (runToolCalls parseArgs execTool am.tool_calls).2 with
            | some e =>
                exact ⟨ChatMsg.assistantCalls am.content
                    (am.tool_calls.map rebuildToolCall) ::
                    (runToolCalls parseArgs execTool am.tool_calls).1,
                  by simp [send_message, h1, hn, hr]⟩
            | none =>
                cases h2 : complete
                    { messages := messages ++ ChatMsg.user user_message ::
                        ChatMsg.assistantCalls am.content
                          (am.tool_calls.map rebuildToolCall) ::
                        (runToolCalls parseArgs execTool am.tool_calls).1,
                      tools := none, tool_choice := none } with
                | error e =>
                    exact ⟨ChatMsg.assistantCalls am.content
                        (am.tool_calls.map rebuildToolCall) ::
                        (runToolCalls parseArgs execTool am.tool_calls).1,
                      by simp [send_message, h1, hn, hr, h2]⟩
                | ok am2 =>
                    exact ⟨ChatMsg.assistantCalls am.content
                        (am.tool_calls.map rebuildToolCall) ::
                        ((runToolCalls parseArgs execTool am.tool_calls).1 ++
                          [ChatMsg.assistant am2.content]),
                      by simp [send_message, h1, hn, hr, h2]⟩
  · intro e he
    simp [send_message, he]
  · intro am e h1 hn hr
    simp only [send_message, h1, hn, hr, List.append_assoc, List.nil_append,
      List.singleton_append, List.cons_append, Bool.false_eq_true, if_false]
  · intro am e h1 hn hr h2
    simp only [send_message, h1, hn, hr, List.append_assoc, List.nil_append,
      List.singleton_append, List.cons_append, Bool.false_eq_true, if_false, h2]

/-- C10 witness: when the first completion call raises, the turn ends with
the user message appended and no assistant reply. -/
theorem send_message_no_rollback_witness :
    send_message completeFailW parseNullW execPongW none [] "hello" =
      ([ChatMsg.user "hello"], Except.error "Connection error") :=
  (send_message_no_rollback completeFailW parseNullW execPongW none []
    "hello").2.2.1 "Connection error" rfl

end MCPChat
